import Mathlib

namespace AzBatch

/-
Shallow embedding of the two Azure Batch sample scripts
  src/Python/Batch/sample2_pools_and_resourcefiles.py  (direct mode)
  src/Python/Batch/sample4_job_scheduler.py            (scheduled mode)

The remote batch-compute and blob-storage services are modelled by an explicit
`RemoteState` (which containers / pools / jobs / schedules / tasks exist) plus
an `Env` that can inject a failure into any remote call (indexed by the number
of remote calls made so far).  Each sample function is embedded as a
straight-line list of instructions run by a small interpreter `runProg` that
records the trace of attempted remote operations, threads the remote state,
and stops at the first unhandled error — mirroring Python exception flow
(`try/except` of a single benign error is `Instr.callSwallow`; `try/finally`
and `try/except BatchErrorException/finally` are composed explicitly in the
`execute_sample` embeddings).  Local console prints have no effect on the
remote services and are not recorded, except for the prints performed by the
`BatchErrorException` handler of the scheduled-mode sample, which are part of
its specified behaviour.  Durations from `datetime.timedelta` arguments are
embedded as their value in minutes.
-/

/-- Errors raised by the storage / batch SDKs, as far as the samples
distinguish them: `ResourceExistsError`, `ResourceNotFoundError`,
`BatchErrorException` (carrying its list of error values, each printed by the
scheduled-mode handler), and any other SDK failure. -/
inductive SdkError where
  | resourceExists
  | resourceNotFound
  | batchError (values : List String)
  | other (code : Nat)
  deriving DecidableEq, Repr

/-- One remote operation attempted by the samples, with the arguments the
claims observe.  `uploadBlob` records the SAS expiry (minutes from now) chosen
at the call site; the wait operations record the maximum wait duration
(minutes) passed at the call site. -/
inductive Action where
  | connectBatch (url : String)
  | connectBlob (url : String)
  | selectVmImage
  | createContainer (container : String)
  | uploadBlob (container blob : String) (expiryMinutes : Nat)
  | poolAdd (poolId vmSize : String) (vmCount : Nat)
  | jobAdd (jobId poolId : String)
  | taskAdd (jobId taskId : String)
  | jobScheduleAdd (scheduleId : String)
  | waitForTasks (jobId : String) (maxWaitMinutes : Nat)
  | waitForJobUnderSchedule (scheduleId : String) (maxWaitMinutes : Nat)
  | waitForScheduleComplete (scheduleId : String) (deadlineMinutes : Nat)
  | taskList (jobId : String)
  | printTaskOutput (jobId : String)
  | deleteContainer (container : String)
  | jobDelete (jobId : String)
  | poolDelete (poolId : String)
  | jobScheduleDelete (scheduleId : String)
  | printBatchErrorValue (value : String)
  deriving DecidableEq, Repr

/-- `true` exactly for the three polling/wait helper calls. -/
def Action.isWait : Action → Bool
  | .waitForTasks _ _ => true
  | .waitForJobUnderSchedule _ _ => true
  | .waitForScheduleComplete _ _ => true
  | _ => false

/-- The records held by the two remote services. -/
structure RemoteState where
  containers : List String
  pools : List String
  jobs : List String
  schedules : List String
  tasks : List (String × String)
  deriving DecidableEq, Repr

/-- Deterministic behaviour of a remote call against the current remote
state: creation of an existing resource raises `ResourceExistsError`,
deletion of a missing resource raises `ResourceNotFoundError`, adding a task
to a missing job fails, and everything else succeeds without changing the
remote records. -/
def RemoteState.perform (s : RemoteState) : Action → RemoteState × Option SdkError
  | .connectBatch _ => (s, none)
  | .connectBlob _ => (s, none)
  | .selectVmImage => (s, none)
  | .createContainer c =>
      if c ∈ s.containers then (s, some .resourceExists)
      else (⟨c :: s.containers, s.pools, s.jobs, s.schedules, s.tasks⟩, none)
  | .uploadBlob _ _ _ => (s, none)
  | .poolAdd p _ _ =>
      if p ∈ s.pools then (s, some .resourceExists)
      else (⟨s.containers, p :: s.pools, s.jobs, s.schedules, s.tasks⟩, none)
  | .jobAdd j _ =>
      if j ∈ s.jobs then (s, some .resourceExists)
      else (⟨s.containers, s.pools, j :: s.jobs, s.schedules, s.tasks⟩, none)
  | .taskAdd j t =>
      if j ∈ s.jobs then (⟨s.containers, s.pools, s.jobs, s.schedules, (j, t) :: s.tasks⟩, none)
      else (s, some .resourceNotFound)
  | .jobScheduleAdd i =>
      if i ∈ s.schedules then (s, some .resourceExists)
      else (⟨s.containers, s.pools, s.jobs, i :: s.schedules, s.tasks⟩, none)
  | .waitForTasks _ _ => (s, none)
  | .waitForJobUnderSchedule _ _ => (s, none)
  | .waitForScheduleComplete _ _ => (s, none)
  | .taskList _ => (s, none)
  | .printTaskOutput _ => (s, none)
  | .deleteContainer c =>
      if c ∈ s.containers then (⟨s.containers.erase c, s.pools, s.jobs, s.schedules, s.tasks⟩, none)
      else (s, some .resourceNotFound)
  | .jobDelete j =>
      if j ∈ s.jobs then (⟨s.containers, s.pools, s.jobs.erase j, s.schedules, s.tasks⟩, none)
      else (s, some .resourceNotFound)
  | .poolDelete p =>
      if p ∈ s.pools then (⟨s.containers, s.pools.erase p, s.jobs, s.schedules, s.tasks⟩, none)
      else (s, some .resourceNotFound)
  | .jobScheduleDelete i =>
      if i ∈ s.schedules then (⟨s.containers, s.pools, s.jobs, s.schedules.erase i, s.tasks⟩, none)
      else (s, some .resourceNotFound)
  | .printBatchErrorValue _ => (s, none)

/-- The execution environment of one run: `fault n a` optionally injects an
SDK failure into the `n`-th remote call (which is attempting action `a`),
overriding the deterministic behaviour; `sasUrl` is the signed URL returned by
`upload_blob_and_create_sas`; `recentJob` is the job id returned by
`wait_for_job_under_job_schedule`; `uniqueSuffix` is the per-run suffix used
by `generate_unique_resource_name`. -/
structure Env where
  fault : Nat → Action → Option SdkError
  sasUrl : String
  recentJob : String
  uniqueSuffix : String

/-- Outcome of the `n`-th remote call attempting action `a`: an injected
fault if the environment specifies one, otherwise the deterministic
behaviour of the remote services. -/
def callOutcome (env : Env) (n : Nat) (s : RemoteState) (a : Action) :
    RemoteState × Option SdkError :=
  match env.fault n a with
  | some e => (s, some e)
  | none => s.perform a

/-- One instruction of an embedded sample function: a plain remote call whose
failure propagates, or a remote call wrapped in `try/except <benign>: pass`
which swallows exactly the given benign error. -/
inductive Instr where
  | call (a : Action)
  | callSwallow (a : Action) (benign : SdkError)
  deriving DecidableEq, Repr

/-- The action an instruction attempts. -/
def Instr.action : Instr → Action
  | .call a => a
  | .callSwallow a _ => a

/-- Whether the instruction swallows the given error. -/
def Instr.benign : Instr → SdkError → Bool
  | .call _, _ => false
  | .callSwallow _ b, e => e = b

/-- Result of running an embedded program: the trace of attempted remote
operations, the updated remote-call counter, the final remote state, and the
error that propagated out (`none` on normal completion). -/
structure RunResult where
  trace : List Action
  counter : Nat
  state : RemoteState
  err : Option SdkError
  deriving Repr

/-- Prepend an attempted action to a result's trace. -/
def RunResult.consTrace (a : Action) (r : RunResult) : RunResult :=
  ⟨a :: r.trace, r.counter, r.state, r.err⟩

/-- Run a straight-line program: attempt each instruction in order, recording
it in the trace; a failure is swallowed if the instruction marks it benign and
otherwise stops execution and propagates. -/
def runProg (env : Env) : List Instr → Nat → RemoteState → RunResult
  | [], n, s => ⟨[], n, s, none⟩
  | i :: rest, n, s =>
    match (callOutcome env n s i.action).2 with
    | none => RunResult.consTrace i.action (runProg env rest (n + 1) (callOutcome env n s i.action).1)
    | some e =>
      if i.benign e then
        RunResult.consTrace i.action (runProg env rest (n + 1) (callOutcome env n s i.action).1)
      else ⟨[i.action], n + 1, (callOutcome env n s i.action).1, some e⟩

/-- Python `try/finally` result combination: an error raised inside the
`finally` suite replaces whatever the body was propagating; otherwise the
body's outcome stands. -/
def finallyResult (bodyErr finErr : Option SdkError) : Option SdkError :=
  match finErr with
  | some e => some e
  | none => bodyErr

/-- The `[Batch]` / `[Storage]` keys both samples read from the shared
configuration file. -/
structure GlobalConfig where
  batchaccountkey : String
  batchaccountname : String
  batchserviceurl : String
  storageaccounturl : String
  storageaccountkey : String
  deriving DecidableEq, Repr

/-- Replace the configured storage account URL. -/
def GlobalConfig.setStorageUrl (g : GlobalConfig) (u : String) : GlobalConfig :=
  ⟨g.batchaccountkey, g.batchaccountname, g.batchserviceurl, u, g.storageaccountkey⟩

/-- Per-sample configuration of `sample2_pools_and_resourcefiles.py`. -/
structure Sample2Config where
  shoulddeletecontainer : Bool
  shoulddeletejob : Bool
  shoulddeletepool : Bool
  poolvmsize : String
  poolvmcount : Nat
  deriving DecidableEq, Repr

/-- Per-sample configuration of `sample4_job_scheduler.py`. -/
structure Sample4Config where
  shoulddeletecontainer : Bool
  shoulddeletejobschedule : Bool
  poolvmsize : String
  poolvmcount : Nat
  deriving DecidableEq, Repr

/-- Modelled from the spec: `common.helpers.generate_unique_resource_name` is
not under `src/`; the spec says submission identifiers "are generated with a
uniqueness suffix (to avoid collisions on rerun)".  Modelled as appending the
run's unique suffix to the given base name. -/
def generate_unique_resource_name (base suffix : String) : String :=
  base ++ "-" ++ suffix

/-- Modelled from the spec: `common.helpers.upload_blob_and_create_sas` is not
under `src/`; per the Resource Stager contract it uploads the local file's
bytes to the given container and returns a signed URL valid until
now + expiry, and any failure propagates.  The returned URL is `Env.sasUrl`;
the instruction records the container, blob name and expiry chosen at the
call site. -/
def upload_blob_and_create_sas (container blob : String) (expiryMinutes : Nat) : Instr :=
  Instr.call (Action.uploadBlob container blob expiryMinutes)

/-- Modelled from the spec:
`common.helpers.select_latest_verified_vm_image_with_node_agent_sku` is not
under `src/`; it queries the batch service for the latest verified VM image
and node-agent SKU, and any failure propagates. -/
def select_latest_verified_vm_image_with_node_agent_sku : Instr :=
  Instr.call Action.selectVmImage

/-- Modelled from the spec: `common.helpers.create_pool_if_not_exist` is not
under `src/`; per its name (and the spec's §4.2 allowance for explicitly
documented exceptions) it adds the pool and treats "already exists" as
benign. -/
def create_pool_if_not_exist (poolId vmSize : String) (vmCount : Nat) : Instr :=
  Instr.callSwallow (Action.poolAdd poolId vmSize vmCount) SdkError.resourceExists

/-- Modelled from the spec: `common.helpers.wait_for_tasks_to_complete` is not
under `src/`; it polls until every task of the job is complete or the maximum
wait duration elapses, raising on timeout (spec §4.3). -/
def wait_for_tasks_to_complete (jobId : String) (maxWaitMinutes : Nat) : Instr :=
  Instr.call (Action.waitForTasks jobId maxWaitMinutes)

/-- Modelled from the spec: `common.helpers.wait_for_job_under_job_schedule`
is not under `src/`; it polls until a job materializes under the schedule (its
id is `Env.recentJob`) or the maximum wait duration elapses, raising on
timeout (spec §4.3). -/
def wait_for_job_under_job_schedule (scheduleId : String) (maxWaitMinutes : Nat) : Instr :=
  Instr.call (Action.waitForJobUnderSchedule scheduleId maxWaitMinutes)

/-- Modelled from the spec: `common.helpers.wait_for_job_schedule_to_complete`
is not under `src/`; it polls until the job schedule reaches a
completed/disabled state or the wall-clock deadline passes (spec §4.3).  The
instruction records the deadline as minutes from module start. -/
def wait_for_job_schedule_to_complete (scheduleId : String) (deadlineMinutes : Nat) : Instr :=
  Instr.call (Action.waitForScheduleComplete scheduleId deadlineMinutes)

/-- Modelled from the spec: `common.helpers.print_task_output` is not under
`src/`; it downloads and prints each listed task's output from the service,
and any failure propagates. -/
def print_task_output (jobId : String) : Instr :=
  Instr.call (Action.printTaskOutput jobId)

/-- Modelled from the spec: `common.helpers.wrap_commands_in_shell` is not
under `src/`; it wraps the given commands in a single shell command line for
the given OS.  Modelled as an injective textual encoding. -/
def wrap_commands_in_shell (os : String) (commands : List String) : String :=
  "shell(" ++ os ++ ":" ++ String.intercalate ";" commands ++ ")"

namespace Sample2

def _CONTAINER_NAME : String := "poolsandresourcefiles"

def _SIMPLE_TASK_NAME : String := "simple_task.py"

def _SIMPLE_TASK_PATH : String := "resources/simple_task.py"

/-- `datetime.timedelta(hours=1)`: the SAS expiry offset both staging calls of
this sample pass to `upload_blob_and_create_sas`. -/
def sasExpiryMinutes : Nat := 60

/-- `datetime.timedelta(minutes=25)`: the maximum wait passed to
`wait_for_tasks_to_complete`. -/
def taskWaitMinutes : Nat := 25

/-- `create_pool`: select a VM image, ensure the container exists (already
existing is benign), upload the task script with a 1-hour SAS, and create the
pool if it does not exist. -/
def create_pool_prog (pool_id vm_size : String) (vm_count : Nat) : List Instr :=
  [select_latest_verified_vm_image_with_node_agent_sku,
   Instr.callSwallow (Action.createContainer _CONTAINER_NAME) SdkError.resourceExists,
   upload_blob_and_create_sas _CONTAINER_NAME _SIMPLE_TASK_NAME sasExpiryMinutes,
   create_pool_if_not_exist pool_id vm_size vm_count]

/-- Run `create_pool`. -/
def create_pool (env : Env) (n : Nat) (s : RemoteState) (pool_id vm_size : String)
    (vm_count : Nat) : RunResult :=
  runProg env (create_pool_prog pool_id vm_size vm_count) n s

/-- `submit_job_and_add_task`: add the job, ensure the container exists
(already existing is benign), upload the task script with a 1-hour SAS, and
add the task `MyPythonTask`. -/
def submit_job_and_add_task_prog (job_id pool_id : String) : List Instr :=
  [Instr.call (Action.jobAdd job_id pool_id),
   Instr.callSwallow (Action.createContainer _CONTAINER_NAME) SdkError.resourceExists,
   upload_blob_and_create_sas _CONTAINER_NAME _SIMPLE_TASK_NAME sasExpiryMinutes,
   Instr.call (Action.taskAdd job_id "MyPythonTask")]

/-- Run `submit_job_and_add_task`. -/
def submit_job_and_add_task (env : Env) (n : Nat) (s : RemoteState) (job_id pool_id : String) :
    RunResult :=
  runProg env (submit_job_and_add_task_prog job_id pool_id) n s

/-- The job id generated by `execute_sample` for the run with the given
unique suffix. -/
def job_id_of (suffix : String) : String :=
  generate_unique_resource_name "PoolsAndResourceFilesJob" suffix

/-- The pool id used by `execute_sample`: the bare literal, with no
uniqueness suffix. -/
def pool_id : String := "PoolsAndResourceFilesPool"

/-- The storage account URL `execute_sample` hands to `BlobServiceClient`:
read from configuration, then immediately overwritten with the hardcoded
literal (the `FIXME` lines of the source). -/
def blob_account_url (g : GlobalConfig) : String :=
  let storage_account_url := g.storageaccounturl
  let storage_account_url := "https://perssto.blob.core.windows.net"
  storage_account_url

/-- The `try` suite of `execute_sample`: create the pool, submit the job and
its task, wait up to 25 minutes for the tasks, list them and print their
output. -/
def body_prog (job_id pool_id vm_size : String) (vm_count : Nat) : List Instr :=
  create_pool_prog pool_id vm_size vm_count ++
  submit_job_and_add_task_prog job_id pool_id ++
  [wait_for_tasks_to_complete job_id taskWaitMinutes,
   Instr.call (Action.taskList job_id),
   print_task_output job_id]

/-- The `finally` suite of `execute_sample`: delete the container, the job and
the pool, each only when its configuration flag is set.  None of the
deletions is guarded by an exception handler. -/
def cleanup_prog (cfg : Sample2Config) (job_id pool_id : String) : List Instr :=
  (if cfg.shoulddeletecontainer then [Instr.call (Action.deleteContainer _CONTAINER_NAME)] else []) ++
  (if cfg.shoulddeletejob then [Instr.call (Action.jobDelete job_id)] else []) ++
  (if cfg.shoulddeletepool then [Instr.call (Action.poolDelete pool_id)] else [])

/-- `execute_sample` of the direct-mode sample: construct the clients (the
storage URL is the hardcoded override), generate the job id, use the fixed
pool id, then run the body under `try/finally` with the cleanup suite. -/
def execute_sample (g : GlobalConfig) (cfg : Sample2Config) (env : Env) (n : Nat)
    (s : RemoteState) : RunResult :=
  let job_id := job_id_of env.uniqueSuffix
  let b := runProg env (body_prog job_id pool_id cfg.poolvmsize cfg.poolvmcount) n s
  let f := runProg env (cleanup_prog cfg job_id pool_id) b.counter b.state
  ⟨Action.connectBatch g.batchserviceurl :: Action.connectBlob (blob_account_url g) ::
     (b.trace ++ f.trace),
   f.counter, f.state, finallyResult b.err f.err⟩

end Sample2

/-- `batchmodels.ResourceFile`. -/
structure ResourceFile where
  file_path : String
  http_url : String
  deriving DecidableEq, Repr

/-- `batchmodels.ImageReference`. -/
structure ImageReference where
  publisher : String
  offer : String
  sku : String
  deriving DecidableEq, Repr

/-- `batchmodels.VirtualMachineConfiguration`. -/
structure VirtualMachineConfiguration where
  image_reference : ImageReference
  node_agent_sku_id : String
  deriving DecidableEq, Repr

/-- `batchmodels.ElevationLevel`. -/
inductive ElevationLevel where
  | non_admin
  | admin
  deriving DecidableEq, Repr

/-- `batchmodels.AutoUserSpecification`. -/
structure AutoUserSpecification where
  elevation_level : ElevationLevel
  deriving DecidableEq, Repr

/-- `batchmodels.UserIdentity`. -/
structure UserIdentity where
  auto_user : AutoUserSpecification
  deriving DecidableEq, Repr

/-- `batchmodels.StartTask`. -/
structure StartTask where
  command_line : String
  resource_files : List ResourceFile
  wait_for_success : Bool
  user_identity : Option UserIdentity
  deriving DecidableEq, Repr

/-- `batchmodels.PoolSpecification`. -/
structure PoolSpecification where
  vm_size : String
  target_dedicated_nodes : Nat
  virtual_machine_configuration : VirtualMachineConfiguration
  start_task : StartTask
  deriving DecidableEq, Repr

/-- `batchmodels.PoolLifetimeOption`. -/
inductive PoolLifetimeOption where
  | job
  | job_schedule
  deriving DecidableEq, Repr

/-- `batchmodels.AutoPoolSpecification` (`auto_pool_id_prefix` is embedded as
`autoPoolIdStem`). -/
structure AutoPoolSpecification where
  autoPoolIdStem : String
  pool : PoolSpecification
  keep_alive : Bool
  pool_lifetime_option : PoolLifetimeOption
  deriving DecidableEq, Repr

/-- `batchmodels.PoolInformation`: either a reference to an existing pool by
id, or an auto-pool specification. -/
inductive PoolInformation where
  | pool (pool_id : String)
  | auto (auto_pool_specification : AutoPoolSpecification)
  deriving DecidableEq, Repr

/-- `batchmodels.OnAllTasksComplete`. -/
inductive OnAllTasksComplete where
  | no_action
  | terminate_job
  deriving DecidableEq, Repr

/-- `batchmodels.JobManagerTask`. -/
structure JobManagerTask where
  id : String
  command_line : String
  resource_files : List ResourceFile
  deriving DecidableEq, Repr

/-- `batchmodels.JobSpecification`, with the fields the scheduled-mode sample
sets. -/
structure JobSpecification where
  pool_info : PoolInformation
  on_all_tasks_complete : OnAllTasksComplete
  job_manager_task : JobManagerTask
  deriving DecidableEq, Repr

/-- `batchmodels.Schedule`.  `do_not_run_after` is embedded as its offset in
minutes from `utcnow` at construction time; `recurrence_interval` as its
value in minutes. -/
structure Schedule where
  do_not_run_after_minutes : Nat
  recurrence_interval_minutes : Nat
  deriving DecidableEq, Repr

/-- `batchmodels.JobScheduleAddParameter`. -/
structure JobScheduleAddParameter where
  id : String
  schedule : Schedule
  job_specification : JobSpecification
  deriving DecidableEq, Repr

namespace Sample4

def _CONTAINER_NAME : String := "jobscheduler"

def _SIMPLE_TASK_NAME : String := "simple_task.py"

def _SIMPLE_TASK_PATH : String := "resources/simple_task.py"

def _PYTHON_DOWNLOAD : String :=
  "https://www.python.org/ftp/python/3.7.3/python-3.7.3-amd64.exe"

def _PYTHON_INSTALL : String :=
  ".\\python373.exe /passive InstallAllUsers=1 PrependPath=1 Include_test=0"

def _USER_ELEVATION_LEVEL : ElevationLevel := ElevationLevel.admin

/-- `_START_TIME = datetime.datetime.utcnow()` at module load, taken as
minute 0 of the run. -/
def _START_TIME_minutes : Nat := 0

/-- `_END_TIME = _START_TIME + datetime.timedelta(minutes=30)`. -/
def _END_TIME_minutes : Nat := _START_TIME_minutes + 30

/-- `datetime.timedelta(minutes=30)`: the SAS expiry offset
`create_job_schedule` passes to `upload_blob_and_create_sas`. -/
def sasExpiryMinutes : Nat := 30

/-- `datetime.timedelta(minutes=5)`: the maximum wait passed to
`wait_for_job_under_job_schedule`. -/
def jobWaitMinutes : Nat := 5

/-- `datetime.timedelta(minutes=25)`: the maximum wait passed to
`wait_for_tasks_to_complete`. -/
def taskWaitMinutes : Nat := 25

/-- `_END_TIME + datetime.timedelta(minutes=10)`: the wall-clock deadline
passed to `wait_for_job_schedule_to_complete`, in minutes from module
start. -/
def scheduleCompleteDeadlineMinutes : Nat := _END_TIME_minutes + 10

/-- The maximum wait duration configured for the scheduled workload: its
three waits run in sequence, the first two bounded by durations (5 and 25
minutes) and the third by the wall-clock deadline `_END_TIME + 10` minutes
from module start. -/
def combinedWaitMinutes : Nat :=
  max (jobWaitMinutes + taskWaitMinutes) scheduleCompleteDeadlineMinutes

/-- The `JobScheduleAddParameter` constructed by `create_job_schedule`,
field for field from the source: a Windows Server 2019 auto-pool scoped to
the job (`keep_alive=False`, `pool_lifetime_option=job`) whose start task
installs Python as admin, a job specification that terminates the job once
all tasks complete and runs the job-manager task `JobManagerTask`, and a
schedule recurring every 10 minutes with a do-not-run-after cutoff 30 minutes
from now. -/
def create_job_schedule_param (job_schedule_id vm_size : String) (vm_count : Nat)
    (sas_url : String) : JobScheduleAddParameter :=
  let vm_config : VirtualMachineConfiguration :=
    ⟨⟨"microsoftwindowsserver", "windowsserver", "2019-datacenter-core"⟩,
     "batch.node.windows amd64"⟩
  let user_id : UserIdentity := ⟨⟨_USER_ELEVATION_LEVEL⟩⟩
  let python_download : ResourceFile := ⟨"python373.exe", _PYTHON_DOWNLOAD⟩
  let pool_info : PoolInformation :=
    PoolInformation.auto
      ⟨"JobScheduler",
       ⟨vm_size, vm_count, vm_config,
        ⟨wrap_commands_in_shell "windows" [_PYTHON_INSTALL],
         [python_download], true, some user_id⟩⟩,
       false, PoolLifetimeOption.job⟩
  let job_spec : JobSpecification :=
    ⟨pool_info, OnAllTasksComplete.terminate_job,
     ⟨"JobManagerTask",
      wrap_commands_in_shell "windows" ["python " ++ _SIMPLE_TASK_NAME],
      [⟨_SIMPLE_TASK_NAME, sas_url⟩]⟩⟩
  let schedule : Schedule := ⟨30, 10⟩
  ⟨job_schedule_id, schedule, job_spec⟩

/-- `create_job_schedule`: upload the task script with a 30-minute SAS (there
is no explicit container-creation step in this sample), then add the job
schedule built by `create_job_schedule_param`. -/
def create_job_schedule_prog (job_schedule_id : String) : List Instr :=
  [upload_blob_and_create_sas _CONTAINER_NAME _SIMPLE_TASK_NAME sasExpiryMinutes,
   Instr.call (Action.jobScheduleAdd job_schedule_id)]

/-- Run `create_job_schedule`. -/
def create_job_schedule (env : Env) (n : Nat) (s : RemoteState)
    (job_schedule_id : String) : RunResult :=
  runProg env (create_job_schedule_prog job_schedule_id) n s

/-- The job schedule id generated by `execute_sample` for the run with the
given unique suffix. -/
def job_schedule_id_of (suffix : String) : String :=
  generate_unique_resource_name "JobScheduler" suffix

/-- The storage account URL `execute_sample` hands to `BlobServiceClient`:
read from configuration, then immediately overwritten with the hardcoded
literal (the `FIXME` lines of the source). -/
def blob_account_url (g : GlobalConfig) : String :=
  let storage_account_url := g.storageaccounturl
  let storage_account_url := "https://perssto.blob.core.windows.net"
  storage_account_url

/-- The `try` suite of `execute_sample`: create the job schedule, wait up to
5 minutes for a job to materialize under it, wait up to 25 minutes for that
job's tasks, list them and print their output, then wait for the schedule to
complete by `_END_TIME + 10` minutes. -/
def body_prog (env : Env) (job_schedule_id : String) : List Instr :=
  create_job_schedule_prog job_schedule_id ++
  [wait_for_job_under_job_schedule job_schedule_id jobWaitMinutes,
   wait_for_tasks_to_complete env.recentJob taskWaitMinutes,
   Instr.call (Action.taskList env.recentJob),
   print_task_output env.recentJob,
   wait_for_job_schedule_to_complete job_schedule_id scheduleCompleteDeadlineMinutes]

/-- The `finally` suite of `execute_sample`: delete the job schedule when its
flag is set (unguarded), then delete the container when its flag is set,
swallowing `ResourceNotFoundError` on that deletion only. -/
def cleanup_prog (cfg : Sample4Config) (job_schedule_id : String) : List Instr :=
  (if cfg.shoulddeletejobschedule then [Instr.call (Action.jobScheduleDelete job_schedule_id)] else []) ++
  (if cfg.shoulddeletecontainer then
     [Instr.callSwallow (Action.deleteContainer _CONTAINER_NAME) SdkError.resourceNotFound]
   else [])

/-- `execute_sample` of the scheduled-mode sample: construct the clients (the
storage URL is the hardcoded override), generate the job schedule id, then
run the body under `try / except BatchErrorException / finally`: a
`batchError` raised by the body has each of its error values printed and is
not re-raised; any other body error propagates after the cleanup suite runs;
an error raised inside the cleanup suite replaces the in-flight one. -/
def execute_sample (g : GlobalConfig) (cfg : Sample4Config) (env : Env) (n : Nat)
    (s : RemoteState) : RunResult :=
  let job_schedule_id := job_schedule_id_of env.uniqueSuffix
  let b := runProg env (body_prog env job_schedule_id) n s
  let handlerTrace : List Action :=
    match b.err with
    | some (SdkError.batchError vs) => vs.map Action.printBatchErrorValue
    | _ => []
  let handledErr : Option SdkError :=
    match b.err with
    | some (SdkError.batchError _) => none
    | r => r
  let f := runProg env (cleanup_prog cfg job_schedule_id) b.counter b.state
  ⟨Action.connectBatch g.batchserviceurl :: Action.connectBlob (blob_account_url g) ::
     (b.trace ++ handlerTrace ++ f.trace),
   f.counter, f.state, finallyResult handledErr f.err⟩

end Sample4

/-- A fixed global configuration used for concrete runs. -/
def gConf : GlobalConfig :=
  ⟨"batchkey", "batchacct", "https://batchacct.region.batch.azure.com",
   "https://configured-account.blob.core.windows.net", "storagekey"⟩

/-- Direct-mode sample configuration with every deletion flag set. -/
def cfg2All : Sample2Config := ⟨true, true, true, "STANDARD_D1_V2", 1⟩

/-- Direct-mode sample configuration that keeps the pool
(`shoulddeletepool=false`). -/
def cfg2KeepPool : Sample2Config := ⟨true, true, false, "STANDARD_D1_V2", 1⟩

/-- Scheduled-mode sample configuration with every deletion flag set. -/
def cfg4All : Sample4Config := ⟨true, true, "Standard_D1_v2", 1⟩

/-- The remote services before a run: no resources exist. -/
def emptyState : RemoteState := ⟨[], [], [], [], []⟩

/-- An environment that injects no faults, with unique suffix `"sfx0"`. -/
def envNoFault : Env :=
  ⟨fun _ _ => none, "https://perssto.blob.core.windows.net/c/b?sig=abc", "recentJob0", "sfx0"⟩

/-- Like `envNoFault` but for a second run, with unique suffix `"sfx1"`. -/
def envNoFaultB : Env :=
  ⟨fun _ _ => none, "https://perssto.blob.core.windows.net/c/b?sig=abc", "recentJob0", "sfx1"⟩

/-- An environment whose very first remote call fails with a generic SDK
error, so the body aborts before creating anything. -/
def envFault0 : Env :=
  ⟨fun n _ => if n = 0 then some (SdkError.other 0) else none,
   "https://perssto.blob.core.windows.net/c/b?sig=abc", "recentJob0", "sfx0"⟩

/-- An environment that injects the error `e` into every remote call
attempting exactly the action `a`, and no other fault. -/
def envFaultOn (a : Action) (e : SdkError) : Env :=
  ⟨fun _ b => if b = a then some e else none,
   "https://perssto.blob.core.windows.net/c/b?sig=abc", "recentJob0", "sfx0"⟩

/-- A remote state in which the direct-mode sample's container already
exists. -/
def stateWithContainer2 : RemoteState := ⟨["poolsandresourcefiles"], [], [], [], []⟩

/-- Scheduled-mode sample configuration that keeps the job schedule but
deletes the container. -/
def cfg4KeepSched : Sample4Config := ⟨true, false, "Standard_D1_v2", 1⟩

/-- Scheduled-mode sample configuration with every deletion flag cleared. -/
def cfg4NoDelete : Sample4Config := ⟨false, false, "Standard_D1_v2", 1⟩

/-- An environment whose very first remote call fails with a
`BatchErrorException` carrying one error value. -/
def envBatchFault : Env :=
  ⟨fun n _ => if n = 0 then some (SdkError.batchError ["boom"]) else none,
   "https://perssto.blob.core.windows.net/c/b?sig=abc", "recentJob0", "sfx0"⟩

/-- Sequential composition of run results, mirroring `runProg` over an
appended program: if `r` propagated an error the continuation never runs,
otherwise the continuation is run from `r`'s counter and state and the traces
are concatenated. -/
def RunResult.andThen (r : RunResult) (k : Nat → RemoteState → RunResult) : RunResult :=
  match r.err with
  | some _ => r
  | none =>
    let r2 := k r.counter r.state
    ⟨r.trace ++ r2.trace, r2.counter, r2.state, r2.err⟩

/-- Every action in a run's trace was an action of the program. -/
theorem runProg_trace_subset (env : Env) (prog : List Instr) :
    ∀ (n : Nat) (s : RemoteState) (a : Action),
      a ∈ (runProg env prog n s).trace → a ∈ prog.map Instr.action := by
  induction prog with
  | nil => intro n s a ha; simp [runProg] at ha
  | cons i rest ih =>
    intro n s a ha
    rw [runProg] at ha
    split at ha
    · rcases List.mem_cons.mp ha with rfl | ha
      · simp
      · exact List.mem_cons_of_mem _ (ih _ _ _ ha)
    · split at ha
      · rcases List.mem_cons.mp ha with rfl | ha
        · simp
        · exact List.mem_cons_of_mem _ (ih _ _ _ ha)
      · rcases List.mem_singleton.mp ha with rfl
        simp

/-- The run of a nonempty program always attempts the first instruction. -/
theorem runProg_cons_trace (env : Env) (i : Instr) (rest : List Instr) (n : Nat)
    (s : RemoteState) :
    ∃ t, (runProg env (i :: rest) n s).trace = i.action :: t := by
  rw [runProg]
  split
  · exact ⟨_, rfl⟩
  · split
    · exact ⟨_, rfl⟩
    · exact ⟨[], rfl⟩

/-- Prepending an action commutes with sequential composition. -/
theorem consTrace_andThen (a : Action) (r : RunResult) (k : Nat → RemoteState → RunResult) :
    (RunResult.consTrace a r).andThen k = RunResult.consTrace a (r.andThen k) := by
  obtain ⟨tr, c, st, e⟩ := r
  cases e <;> simp [RunResult.andThen, RunResult.consTrace]

/-- Running an appended program is running the first program and, if it did
not propagate an error, the second from where it left off. -/
theorem runProg_append (env : Env) (p q : List Instr) :
    ∀ (n : Nat) (s : RemoteState),
      runProg env (p ++ q) n s =
        (runProg env p n s).andThen (fun m t => runProg env q m t) := by
  induction p with
  | nil =>
    intro n s
    simp only [List.nil_append, runProg, RunResult.andThen]
  | cons i rest ih =>
    intro n s
    simp only [List.cons_append]
    rw [runProg, runProg]
    split
    · rw [ih, consTrace_andThen]
    · split
      · rw [ih, consTrace_andThen]
      · unfold RunResult.andThen
        simp

/-- A remote call that is not a pool deletion never removes a pool. -/
theorem perform_pools_mem (s : RemoteState) (a : Action) (pid : String)
    (hp : ∀ q, a ≠ Action.poolDelete q) (h : pid ∈ s.pools) :
    pid ∈ (s.perform a).1.pools := by
  cases a <;> simp only [RemoteState.perform] <;> first
    | exact h
    | (split <;> simp_all)

/-- A call whose action is not a pool deletion never removes a pool, with or
without an injected fault. -/
theorem callOutcome_pools_mem (env : Env) (n : Nat) (s : RemoteState) (a : Action)
    (pid : String) (hp : ∀ q, a ≠ Action.poolDelete q) (h : pid ∈ s.pools) :
    pid ∈ (callOutcome env n s a).1.pools := by
  unfold callOutcome
  cases env.fault n a
  · exact perform_pools_mem s a pid hp h
  · exact h

/-- A program containing no pool deletion preserves every existing pool. -/
theorem runProg_pools_mem (env : Env) (prog : List Instr)
    (hprog : ∀ i ∈ prog, ∀ q, i.action ≠ Action.poolDelete q) :
    ∀ (n : Nat) (s : RemoteState) (pid : String),
      pid ∈ s.pools → pid ∈ (runProg env prog n s).state.pools := by
  induction prog with
  | nil => intro n s pid h; simpa [runProg] using h
  | cons i rest ih =>
    intro n s pid h
    have hi : ∀ q, i.action ≠ Action.poolDelete q := hprog i (List.mem_cons_self i rest)
    have hrest : ∀ j ∈ rest, ∀ q, j.action ≠ Action.poolDelete q :=
      fun j hj => hprog j (List.mem_cons_of_mem i hj)
    have hstep : pid ∈ (callOutcome env n s i.action).1.pools :=
      callOutcome_pools_mem env n s i.action pid hi h
    rw [runProg]
    split
    · exact ih hrest _ _ _ hstep
    · split
      · exact ih hrest _ _ _ hstep
      · exact hstep

/-- A remote call that is not a job deletion never removes a job. -/
theorem perform_jobs_mem (s : RemoteState) (a : Action) (j : String)
    (hp : ∀ q, a ≠ Action.jobDelete q) (h : j ∈ s.jobs) :
    j ∈ (s.perform a).1.jobs := by
  cases a <;> simp only [RemoteState.perform] <;> first
    | exact h
    | (split <;> simp_all)

/-- A call whose action is not a job deletion never removes a job, with or
without an injected fault. -/
theorem callOutcome_jobs_mem (env : Env) (n : Nat) (s : RemoteState) (a : Action)
    (j : String) (hp : ∀ q, a ≠ Action.jobDelete q) (h : j ∈ s.jobs) :
    j ∈ (callOutcome env n s a).1.jobs := by
  unfold callOutcome
  cases env.fault n a
  · exact perform_jobs_mem s a j hp h
  · exact h

/-- A successful `job.add` call leaves the job present in the remote
state. -/
theorem callOutcome_jobAdd_mem (env : Env) (n : Nat) (s : RemoteState) (j p : String)
    (s1 : RemoteState) (h : callOutcome env n s (Action.jobAdd j p) = (s1, none)) :
    j ∈ s1.jobs := by
  unfold callOutcome at h
  rcases hf : env.fault n (Action.jobAdd j p) with _ | e <;>
    simp only [hf, RemoteState.perform] at h
  · by_cases hj : j ∈ s.jobs
    · rw [if_pos hj] at h
      simp at h
    · rw [if_neg hj] at h
      have h1 : (⟨s.containers, s.pools, j :: s.jobs, s.schedules, s.tasks⟩ : RemoteState) = s1 :=
        congrArg Prod.fst h
      rw [← h1]
      exact List.mem_cons_self j s.jobs
  · simp at h

/-- C1: false as stated.  The direct-mode sample's SAS expiry (60 minutes)
does strictly exceed its 25-minute task wait, but the scheduled-mode sample's
SAS expiry (30 minutes) does not strictly exceed the combined wait configured
for its workload (5 minutes for the job to materialize, 25 minutes for its
tasks, and a schedule-completion deadline 40 minutes from module start), so
the claimed invariant fails for the scheduled-mode sample. -/
theorem c1_counterexample :
    ¬ (Sample2.sasExpiryMinutes > Sample2.taskWaitMinutes ∧
       Sample4.sasExpiryMinutes > Sample4.combinedWaitMinutes) := by
  decide

/-- C1 (amended): the direct-mode sample's SAS expiry (60 minutes) strictly
exceeds its 25-minute task wait, while the scheduled-mode sample's SAS expiry
(30 minutes) is no larger than even the first two waits combined (5 + 25
minutes) and strictly below the 40-minute schedule-completion deadline; these
are exactly the expiries and waits the embedded programs use. -/
theorem c1_amended :
    Sample2.sasExpiryMinutes > Sample2.taskWaitMinutes ∧
    Sample4.sasExpiryMinutes ≤ Sample4.jobWaitMinutes + Sample4.taskWaitMinutes ∧
    Sample4.sasExpiryMinutes < Sample4.combinedWaitMinutes ∧
    (∀ pool_id vm_size vm_count,
      Action.uploadBlob Sample2._CONTAINER_NAME Sample2._SIMPLE_TASK_NAME Sample2.sasExpiryMinutes
        ∈ (Sample2.create_pool_prog pool_id vm_size vm_count).map Instr.action) ∧
    (∀ job_id pool_id,
      Action.uploadBlob Sample2._CONTAINER_NAME Sample2._SIMPLE_TASK_NAME Sample2.sasExpiryMinutes
        ∈ (Sample2.submit_job_and_add_task_prog job_id pool_id).map Instr.action) ∧
    (∀ job_id pool_id vm_size vm_count,
      Action.waitForTasks job_id Sample2.taskWaitMinutes
        ∈ (Sample2.body_prog job_id pool_id vm_size vm_count).map Instr.action) ∧
    (∀ job_schedule_id,
      Action.uploadBlob Sample4._CONTAINER_NAME Sample4._SIMPLE_TASK_NAME Sample4.sasExpiryMinutes
        ∈ (Sample4.create_job_schedule_prog job_schedule_id).map Instr.action) ∧
    (∀ env job_schedule_id,
      Action.waitForJobUnderSchedule job_schedule_id Sample4.jobWaitMinutes
        ∈ (Sample4.body_prog env job_schedule_id).map Instr.action ∧
      Action.waitForTasks env.recentJob Sample4.taskWaitMinutes
        ∈ (Sample4.body_prog env job_schedule_id).map Instr.action ∧
      Action.waitForScheduleComplete job_schedule_id Sample4.scheduleCompleteDeadlineMinutes
        ∈ (Sample4.body_prog env job_schedule_id).map Instr.action) := by
  refine ⟨by decide, by decide, by decide, ?_, ?_, ?_, ?_, ?_⟩
  · intro pool_id vm_size vm_count
    simp [Sample2.create_pool_prog, upload_blob_and_create_sas,
      select_latest_verified_vm_image_with_node_agent_sku, create_pool_if_not_exist,
      Instr.action]
  · intro job_id pool_id
    simp [Sample2.submit_job_and_add_task_prog, upload_blob_and_create_sas, Instr.action]
  · intro job_id pool_id vm_size vm_count
    simp [Sample2.body_prog, Sample2.create_pool_prog, Sample2.submit_job_and_add_task_prog,
      wait_for_tasks_to_complete, upload_blob_and_create_sas,
      select_latest_verified_vm_image_with_node_agent_sku, create_pool_if_not_exist,
      print_task_output, Instr.action]
  · intro job_schedule_id
    simp [Sample4.create_job_schedule_prog, upload_blob_and_create_sas, Instr.action]
  · intro env job_schedule_id
    refine ⟨?_, ?_, ?_⟩ <;>
      simp [Sample4.body_prog, Sample4.create_job_schedule_prog,
        wait_for_job_under_job_schedule, wait_for_tasks_to_complete,
        wait_for_job_schedule_to_complete, upload_blob_and_create_sas,
        print_task_output, Instr.action]

/-- C2: in both samples the configured storage account URL has no effect —
`execute_sample` behaves identically for any two configurations differing
only in `storageaccounturl`, because the URL handed to `BlobServiceClient` is
always the hardcoded literal. -/
theorem c2_storage_url_override :
    ∀ (g : GlobalConfig) (u : String) (cfg2 : Sample2Config) (cfg4 : Sample4Config)
      (env : Env) (n : Nat) (s : RemoteState),
      Sample2.execute_sample (g.setStorageUrl u) cfg2 env n s =
        Sample2.execute_sample g cfg2 env n s ∧
      Sample4.execute_sample (g.setStorageUrl u) cfg4 env n s =
        Sample4.execute_sample g cfg4 env n s ∧
      Sample2.blob_account_url g = "https://perssto.blob.core.windows.net" ∧
      Sample4.blob_account_url g = "https://perssto.blob.core.windows.net" := by
  intro g u cfg2 cfg4 env n s
  exact ⟨rfl, rfl, rfl, rfl⟩

/-- C4: false as stated.  In the direct-mode sample the cleanup's container
deletion is not guarded: in this concrete run the body aborts on its first
remote call, the cleanup then attempts to delete the (never created)
container, and the resulting `ResourceNotFoundError` propagates out of
`execute_sample` as its final error instead of being swallowed. -/
theorem c4_counterexample :
    (Sample2.execute_sample gConf cfg2All envFault0 0 emptyState).err =
      some SdkError.resourceNotFound ∧
    (Sample2.execute_sample gConf cfg2All envFault0 0 emptyState).trace.getLast? =
      some (Action.deleteContainer Sample2._CONTAINER_NAME) := by
  decide

/-- C5: false as stated.  The direct-mode sample's pool id is the bare
literal `PoolsAndResourceFilesPool` with no uniqueness suffix: two runs with
distinct unique suffixes both submit a pool with that same id. -/
theorem c5_counterexample :
    envNoFault.uniqueSuffix ≠ envNoFaultB.uniqueSuffix ∧
    Action.poolAdd Sample2.pool_id cfg2All.poolvmsize cfg2All.poolvmcount
      ∈ (Sample2.execute_sample gConf cfg2All envNoFault 0 emptyState).trace ∧
    Action.poolAdd Sample2.pool_id cfg2All.poolvmsize cfg2All.poolvmcount
      ∈ (Sample2.execute_sample gConf cfg2All envNoFaultB 0 emptyState).trace := by
  decide

/-- C6: false as stated.  In this concrete direct-mode run the body aborts on
its first remote call, the teardown block runs and attempts the flagged
container deletion, but that deletion raises (container never created) and
the flagged job deletion is never attempted. -/
theorem c6_counterexample :
    cfg2All.shoulddeletejob = true ∧
    Action.deleteContainer Sample2._CONTAINER_NAME
      ∈ (Sample2.execute_sample gConf cfg2All envFault0 0 emptyState).trace ∧
    Action.jobDelete (Sample2.job_id_of envFault0.uniqueSuffix)
      ∉ (Sample2.execute_sample gConf cfg2All envFault0 0 emptyState).trace := by
  decide

/-- C10: `submit_job_and_add_task` is not atomic.  Its first remote call is
`job.add`; in every run whose propagated error arose in the staging step (the
container creation or the blob upload — i.e. the last attempted operation was
one of those two), the job is already present in the remote state and the
task was never added. -/
theorem c10_submit_not_atomic :
    ∀ (env : Env) (n : Nat) (s : RemoteState) (job_id pool_id : String) (e : SdkError),
      (Sample2.submit_job_and_add_task env n s job_id pool_id).err = some e →
      ((Sample2.submit_job_and_add_task env n s job_id pool_id).trace.getLast? =
          some (Action.createContainer Sample2._CONTAINER_NAME) ∨
        (Sample2.submit_job_and_add_task env n s job_id pool_id).trace.getLast? =
          some (Action.uploadBlob Sample2._CONTAINER_NAME Sample2._SIMPLE_TASK_NAME
            Sample2.sasExpiryMinutes)) →
      (Sample2.submit_job_and_add_task env n s job_id pool_id).trace.head? =
          some (Action.jobAdd job_id pool_id) ∧
      job_id ∈ (Sample2.submit_job_and_add_task env n s job_id pool_id).state.jobs ∧
      (∀ tid, Action.taskAdd job_id tid
          ∉ (Sample2.submit_job_and_add_task env n s job_id pool_id).trace) := by
  intro env n s job_id pool_id e
  unfold Sample2.submit_job_and_add_task Sample2.submit_job_and_add_task_prog
    upload_blob_and_create_sas
  rcases h1 : callOutcome env n s (Action.jobAdd job_id pool_id) with ⟨s1, r1⟩
  rcases r1 with _ | e1
  · have hj1 : job_id ∈ s1.jobs := callOutcome_jobAdd_mem env n s job_id pool_id s1 h1
    rcases h2 : callOutcome env (n + 1) s1 (Action.createContainer Sample2._CONTAINER_NAME)
      with ⟨s2, r2⟩
    have hj2 : job_id ∈ s2.jobs := by
      have := callOutcome_jobs_mem env (n + 1) s1
        (Action.createContainer Sample2._CONTAINER_NAME) job_id (by intro q; simp) hj1
      rw [h2] at this
      exact this
    rcases r2 with _ | e2
    · rcases h3 : callOutcome env (n + 2) s2
        (Action.uploadBlob Sample2._CONTAINER_NAME Sample2._SIMPLE_TASK_NAME
          Sample2.sasExpiryMinutes) with ⟨s3, r3⟩
      have hj3 : job_id ∈ s3.jobs := by
        have := callOutcome_jobs_mem env (n + 2) s2
          (Action.uploadBlob Sample2._CONTAINER_NAME Sample2._SIMPLE_TASK_NAME
            Sample2.sasExpiryMinutes) job_id (by intro q; simp) hj2
        rw [h3] at this
        exact this
      rcases r3 with _ | e3
      · rcases h4 : callOutcome env (n + 3) s3 (Action.taskAdd job_id "MyPythonTask")
          with ⟨s4, r4⟩
        rcases r4 with _ | e4
        · simp [runProg, Instr.action, Instr.benign, h1, h2, h3, h4, RunResult.consTrace]
        · simp [runProg, Instr.action, Instr.benign, h1, h2, h3, h4, RunResult.consTrace]
      · simp [runProg, Instr.action, Instr.benign, h1, h2, h3, RunResult.consTrace, hj3]
    · by_cases hb2 : e2 = SdkError.resourceExists
      · subst hb2
        rcases h3 : callOutcome env (n + 2) s2
          (Action.uploadBlob Sample2._CONTAINER_NAME Sample2._SIMPLE_TASK_NAME
            Sample2.sasExpiryMinutes) with ⟨s3, r3⟩
        have hj3 : job_id ∈ s3.jobs := by
          have := callOutcome_jobs_mem env (n + 2) s2
            (Action.uploadBlob Sample2._CONTAINER_NAME Sample2._SIMPLE_TASK_NAME
              Sample2.sasExpiryMinutes) job_id (by intro q; simp) hj2
          rw [h3] at this
          exact this
        rcases r3 with _ | e3
        · rcases h4 : callOutcome env (n + 3) s3 (Action.taskAdd job_id "MyPythonTask")
            with ⟨s4, r4⟩
          rcases r4 with _ | e4
          · simp [runProg, Instr.action, Instr.benign, h1, h2, h3, h4, RunResult.consTrace]
          · simp [runProg, Instr.action, Instr.benign, h1, h2, h3, h4, RunResult.consTrace]
        · simp [runProg, Instr.action, Instr.benign, h1, h2, h3, RunResult.consTrace, hj3]
      · simp [runProg, Instr.action, Instr.benign, h1, h2, RunResult.consTrace, hb2, hj2]
  · simp [runProg, Instr.action, Instr.benign, h1, RunResult.consTrace]

/-- Witness for C10: a concrete run whose blob upload fails with a generic
SDK error after the job was added. -/
theorem c10_submit_not_atomic_witness :
    (Sample2.submit_job_and_add_task
        (envFaultOn (Action.uploadBlob Sample2._CONTAINER_NAME Sample2._SIMPLE_TASK_NAME
          Sample2.sasExpiryMinutes) (SdkError.other 1)) 0 emptyState "JobX" "PoolX").err =
      some (SdkError.other 1) ∧
    ((Sample2.submit_job_and_add_task
        (envFaultOn (Action.uploadBlob Sample2._CONTAINER_NAME Sample2._SIMPLE_TASK_NAME
          Sample2.sasExpiryMinutes) (SdkError.other 1)) 0 emptyState "JobX" "PoolX").trace.head? =
      some (Action.jobAdd "JobX" "PoolX") ∧
      "JobX" ∈ (Sample2.submit_job_and_add_task
        (envFaultOn (Action.uploadBlob Sample2._CONTAINER_NAME Sample2._SIMPLE_TASK_NAME
          Sample2.sasExpiryMinutes) (SdkError.other 1)) 0 emptyState "JobX" "PoolX").state.jobs ∧
      (∀ tid, Action.taskAdd "JobX" tid
        ∉ (Sample2.submit_job_and_add_task
        (envFaultOn (Action.uploadBlob Sample2._CONTAINER_NAME Sample2._SIMPLE_TASK_NAME
          Sample2.sasExpiryMinutes) (SdkError.other 1)) 0 emptyState "JobX" "PoolX").trace)) :=
  ⟨by decide,
   c10_submit_not_atomic _ 0 emptyState "JobX" "PoolX" (SdkError.other 1) (by decide)
     (Or.inr (by decide))⟩

/-- Every instruction of the direct-mode body attempts something other than a
pool deletion. -/
theorem sample2_body_no_poolDelete (job_id pool_id vm_size : String) (vm_count : Nat) :
    ∀ i ∈ Sample2.body_prog job_id pool_id vm_size vm_count,
      ∀ q, i.action ≠ Action.poolDelete q := by
  intro i hi q
  simp only [Sample2.body_prog, Sample2.create_pool_prog, Sample2.submit_job_and_add_task_prog,
    select_latest_verified_vm_image_with_node_agent_sku, upload_blob_and_create_sas,
    create_pool_if_not_exist, wait_for_tasks_to_complete, print_task_output,
    List.cons_append, List.nil_append] at hi
  fin_cases hi <;> simp [Instr.action]

/-- With `shoulddeletepool=false`, the direct-mode cleanup suite contains no
pool deletion. -/
theorem sample2_cleanup_no_poolDelete (cfg : Sample2Config) (job_id pool_id : String)
    (h : cfg.shoulddeletepool = false) :
    ∀ i ∈ Sample2.cleanup_prog cfg job_id pool_id,
      ∀ q, i.action ≠ Action.poolDelete q := by
  intro i hi q
  simp only [Sample2.cleanup_prog, h, if_false, List.append_nil] at hi
  by_cases hc : cfg.shoulddeletecontainer <;> by_cases hj : cfg.shoulddeletejob <;>
    simp only [hc, hj, if_true, if_false, List.cons_append, List.nil_append] at hi <;>
    first
      | exact absurd hi (List.not_mem_nil i)
      | (fin_cases hi <;> simp [Instr.action])

/-- With no injected faults, `create_pool` completes without error and leaves
the pool present in the remote state, whatever the prior state (an existing
container and an existing pool are both benign). -/
theorem create_pool_noFault (env : Env) (n : Nat) (s : RemoteState)
    (pool_id vm_size : String) (vm_count : Nat) (hf : ∀ m a, env.fault m a = none) :
    (Sample2.create_pool env n s pool_id vm_size vm_count).err = none ∧
    pool_id ∈ (Sample2.create_pool env n s pool_id vm_size vm_count).state.pools := by
  by_cases hc : Sample2._CONTAINER_NAME ∈ s.containers <;>
    by_cases hp : pool_id ∈ s.pools <;>
    simp [Sample2.create_pool, Sample2.create_pool_prog, runProg, callOutcome, hf,
      RemoteState.perform, hc, hp, select_latest_verified_vm_image_with_node_agent_sku,
      upload_blob_and_create_sas, create_pool_if_not_exist, Instr.action, Instr.benign,
      RunResult.consTrace]

/-- When the first part of a composition completes without error, the final
state is the second part's. -/
theorem RunResult.andThen_err_none_state (r : RunResult) (k : Nat → RemoteState → RunResult)
    (h : r.err = none) : (r.andThen k).state = (k r.counter r.state).state := by
  unfold RunResult.andThen
  rw [h]

/-- When the first part of a composition completes without error, the final
counter is the second part's. -/
theorem RunResult.andThen_err_none_counter (r : RunResult) (k : Nat → RemoteState → RunResult)
    (h : r.err = none) : (r.andThen k).counter = (k r.counter r.state).counter := by
  unfold RunResult.andThen
  rw [h]

/-- C7: with `shoulddeletepool=false` the direct-mode sample never attempts a
pool deletion on any exit path, every pool present before the run is still
present after it, and in a fault-free run the sample's pool itself is present
in the remote state when `execute_sample` returns. -/
theorem c7_pool_not_deleted :
    ∀ (g : GlobalConfig) (cfg : Sample2Config) (env : Env) (n : Nat) (s : RemoteState),
      cfg.shoulddeletepool = false →
      (∀ q, Action.poolDelete q ∉ (Sample2.execute_sample g cfg env n s).trace) ∧
      (∀ pid, pid ∈ s.pools → pid ∈ (Sample2.execute_sample g cfg env n s).state.pools) ∧
      ((∀ m a, env.fault m a = none) →
        Sample2.pool_id ∈ (Sample2.execute_sample g cfg env n s).state.pools) := by
  intro g cfg env n s hflag
  refine ⟨?_, ?_, ?_⟩
  · intro q hq
    simp only [Sample2.execute_sample, List.mem_cons, List.mem_append] at hq
    rcases hq with h | h | h | h
    · exact absurd h (by simp)
    · exact absurd h (by simp)
    · have := runProg_trace_subset env _ _ _ _ h
      rw [List.mem_map] at this
      obtain ⟨i, hi, hact⟩ := this
      exact sample2_body_no_poolDelete _ _ _ _ i hi q hact
    · have := runProg_trace_subset env _ _ _ _ h
      rw [List.mem_map] at this
      obtain ⟨i, hi, hact⟩ := this
      exact sample2_cleanup_no_poolDelete cfg _ _ hflag i hi q hact
  · intro pid hpid
    simp only [Sample2.execute_sample]
    exact runProg_pools_mem env _ (sample2_cleanup_no_poolDelete cfg _ _ hflag) _ _ _
      (runProg_pools_mem env _ (sample2_body_no_poolDelete _ _ _ _) _ _ _ hpid)
  · intro hf
    have hshape : Sample2.body_prog (Sample2.job_id_of env.uniqueSuffix) Sample2.pool_id
        cfg.poolvmsize cfg.poolvmcount =
        Sample2.create_pool_prog Sample2.pool_id cfg.poolvmsize cfg.poolvmcount ++
          (Sample2.submit_job_and_add_task_prog (Sample2.job_id_of env.uniqueSuffix)
              Sample2.pool_id ++
            [wait_for_tasks_to_complete (Sample2.job_id_of env.uniqueSuffix)
                Sample2.taskWaitMinutes,
             Instr.call (Action.taskList (Sample2.job_id_of env.uniqueSuffix)),
             print_task_output (Sample2.job_id_of env.uniqueSuffix)]) := by
      simp [Sample2.body_prog, List.append_assoc]
    have hcp := create_pool_noFault env n s Sample2.pool_id cfg.poolvmsize cfg.poolvmcount hf
    have hrest : ∀ i ∈ Sample2.submit_job_and_add_task_prog (Sample2.job_id_of env.uniqueSuffix)
          Sample2.pool_id ++
        [wait_for_tasks_to_complete (Sample2.job_id_of env.uniqueSuffix) Sample2.taskWaitMinutes,
         Instr.call (Action.taskList (Sample2.job_id_of env.uniqueSuffix)),
         print_task_output (Sample2.job_id_of env.uniqueSuffix)],
        ∀ q, i.action ≠ Action.poolDelete q := by
      intro i hi q
      simp only [Sample2.submit_job_and_add_task_prog, upload_blob_and_create_sas,
        wait_for_tasks_to_complete, print_task_output, List.cons_append, List.nil_append] at hi
      fin_cases hi <;> simp [Instr.action]
    rw [Sample2.create_pool] at hcp
    simp only [Sample2.execute_sample, hshape, runProg_append]
    apply runProg_pools_mem env _ (sample2_cleanup_no_poolDelete cfg _ _ hflag)
    rw [RunResult.andThen_err_none_state _ _ hcp.1, ← runProg_append]
    exact runProg_pools_mem env _ hrest _ _ _ hcp.2

/-- Witness for C7: a concrete fault-free run with `shoulddeletepool=false`
never attempts a pool deletion and ends with the pool present. -/
theorem c7_pool_not_deleted_witness :
    cfg2KeepPool.shoulddeletepool = false ∧
    (Action.poolDelete Sample2.pool_id
        ∉ (Sample2.execute_sample gConf cfg2KeepPool envNoFault 0 emptyState).trace ∧
      Sample2.pool_id ∈ (Sample2.execute_sample gConf cfg2KeepPool envNoFault 0 emptyState).state.pools) :=
  ⟨rfl,
   (c7_pool_not_deleted gConf cfg2KeepPool envNoFault 0 emptyState rfl).1 Sample2.pool_id,
   (c7_pool_not_deleted gConf cfg2KeepPool envNoFault 0 emptyState rfl).2.2 (fun _ _ => rfl)⟩

/-- C3: staging is idempotent on container existence and selective about
errors.  In both `create_pool` and `submit_job_and_add_task`: with no
injected fault, an already-existing container is swallowed and execution
continues to the upload; a fault-free staging pass never errors whatever the
prior container state (so a second staging call with the same container name
never errors); a container-creation failure other than "already exists"
propagates (without reaching the upload), and an upload failure
propagates. -/
theorem c3_staging_idempotent :
    (∀ (env : Env) (n : Nat) (s : RemoteState) (pool_id vm_size : String) (vm_count : Nat),
      (∀ m a, env.fault m a = none) → Sample2._CONTAINER_NAME ∈ s.containers →
      Action.uploadBlob Sample2._CONTAINER_NAME Sample2._SIMPLE_TASK_NAME Sample2.sasExpiryMinutes
          ∈ (Sample2.create_pool env n s pool_id vm_size vm_count).trace ∧
        (Sample2.create_pool env n s pool_id vm_size vm_count).err = none) ∧
    (∀ (env : Env) (n : Nat) (s : RemoteState) (job_id pool_id : String),
      (∀ m a, env.fault m a = none) → Sample2._CONTAINER_NAME ∈ s.containers →
      job_id ∉ s.jobs →
      Action.uploadBlob Sample2._CONTAINER_NAME Sample2._SIMPLE_TASK_NAME Sample2.sasExpiryMinutes
          ∈ (Sample2.submit_job_and_add_task env n s job_id pool_id).trace ∧
        (Sample2.submit_job_and_add_task env n s job_id pool_id).err = none) ∧
    (∀ (env : Env) (n : Nat) (s : RemoteState) (pool_id vm_size : String) (vm_count : Nat),
      (∀ m a, env.fault m a = none) →
      (Sample2.create_pool env n s pool_id vm_size vm_count).err = none) ∧
    (∀ (s : RemoteState) (pool_id vm_size : String) (vm_count : Nat) (e : SdkError),
      e ≠ SdkError.resourceExists →
      (Sample2.create_pool (envFaultOn (Action.createContainer Sample2._CONTAINER_NAME) e)
          0 s pool_id vm_size vm_count).err = some e ∧
      Action.uploadBlob Sample2._CONTAINER_NAME Sample2._SIMPLE_TASK_NAME Sample2.sasExpiryMinutes
        ∉ (Sample2.create_pool (envFaultOn (Action.createContainer Sample2._CONTAINER_NAME) e)
          0 s pool_id vm_size vm_count).trace) ∧
    (∀ (s : RemoteState) (job_id pool_id : String) (e : SdkError),
      e ≠ SdkError.resourceExists → job_id ∉ s.jobs →
      (Sample2.submit_job_and_add_task
          (envFaultOn (Action.createContainer Sample2._CONTAINER_NAME) e)
          0 s job_id pool_id).err = some e) ∧
    (∀ (s : RemoteState) (pool_id vm_size : String) (vm_count : Nat) (e : SdkError),
      (Sample2.create_pool
          (envFaultOn (Action.uploadBlob Sample2._CONTAINER_NAME Sample2._SIMPLE_TASK_NAME
            Sample2.sasExpiryMinutes) e)
          0 s pool_id vm_size vm_count).err = some e) := by
  refine ⟨?_, ?_, ?_, ?_, ?_, ?_⟩
  · intro env n s pool_id vm_size vm_count hf hc
    by_cases hp : pool_id ∈ s.pools <;>
      simp [Sample2.create_pool, Sample2.create_pool_prog, runProg, callOutcome, hf,
        RemoteState.perform, hc, hp, select_latest_verified_vm_image_with_node_agent_sku,
        upload_blob_and_create_sas, create_pool_if_not_exist, Instr.action, Instr.benign,
        RunResult.consTrace]
  · intro env n s job_id pool_id hf hc hj
    simp [Sample2.submit_job_and_add_task, Sample2.submit_job_and_add_task_prog, runProg,
      callOutcome, hf, RemoteState.perform, hc, hj, upload_blob_and_create_sas,
      Instr.action, Instr.benign, RunResult.consTrace]
  · intro env n s pool_id vm_size vm_count hf
    by_cases hc : Sample2._CONTAINER_NAME ∈ s.containers <;>
      by_cases hp : pool_id ∈ s.pools <;>
      simp [Sample2.create_pool, Sample2.create_pool_prog, runProg, callOutcome, hf,
        RemoteState.perform, hc, hp, select_latest_verified_vm_image_with_node_agent_sku,
        upload_blob_and_create_sas, create_pool_if_not_exist, Instr.action, Instr.benign,
        RunResult.consTrace]
  · intro s pool_id vm_size vm_count e he
    simp [Sample2.create_pool, Sample2.create_pool_prog, runProg, callOutcome, envFaultOn,
      RemoteState.perform, select_latest_verified_vm_image_with_node_agent_sku,
      upload_blob_and_create_sas, create_pool_if_not_exist, Instr.action, Instr.benign,
      RunResult.consTrace, he]
  · intro s job_id pool_id e he hj
    simp [Sample2.submit_job_and_add_task, Sample2.submit_job_and_add_task_prog, runProg,
      callOutcome, envFaultOn, RemoteState.perform, hj, upload_blob_and_create_sas,
      Instr.action, Instr.benign, RunResult.consTrace, he]
  · intro s pool_id vm_size vm_count e
    by_cases hc : Sample2._CONTAINER_NAME ∈ s.containers <;>
      simp [Sample2.create_pool, Sample2.create_pool_prog, runProg, callOutcome, envFaultOn,
        RemoteState.perform, hc, select_latest_verified_vm_image_with_node_agent_sku,
        upload_blob_and_create_sas, create_pool_if_not_exist, Instr.action, Instr.benign,
        RunResult.consTrace]

/-- Witness for C3: in a concrete state where the container already exists, a
fault-free `create_pool` still reaches the upload and returns no error. -/
theorem c3_staging_idempotent_witness :
    (∀ m a, envNoFault.fault m a = none) ∧
    Sample2._CONTAINER_NAME ∈ stateWithContainer2.containers ∧
    (Action.uploadBlob Sample2._CONTAINER_NAME Sample2._SIMPLE_TASK_NAME Sample2.sasExpiryMinutes
        ∈ (Sample2.create_pool envNoFault 0 stateWithContainer2 "PoolsAndResourceFilesPool"
          "STANDARD_D1_V2" 1).trace ∧
      (Sample2.create_pool envNoFault 0 stateWithContainer2 "PoolsAndResourceFilesPool"
          "STANDARD_D1_V2" 1).err = none) :=
  ⟨fun _ _ => rfl, by decide,
   c3_staging_idempotent.1 envNoFault 0 stateWithContainer2 "PoolsAndResourceFilesPool"
     "STANDARD_D1_V2" 1 (fun _ _ => rfl) (by decide)⟩

/-- C4 (amended): in the scheduled-mode sample a `ResourceNotFoundError`
raised by the cleanup's container deletion is swallowed, while in the
direct-mode sample the cleanup's container deletion is unguarded, so any
error it raises — including "container not found" — propagates out of the
cleanup suite. -/
theorem c4_amended :
    (∀ (env : Env) (n : Nat) (s : RemoteState) (cfg : Sample4Config)
        (job_schedule_id : String),
      cfg.shoulddeletejobschedule = false → cfg.shoulddeletecontainer = true →
      (callOutcome env n s (Action.deleteContainer Sample4._CONTAINER_NAME)).2 =
        some SdkError.resourceNotFound →
      (runProg env (Sample4.cleanup_prog cfg job_schedule_id) n s).err = none) ∧
    (∀ (env : Env) (n : Nat) (s : RemoteState) (cfg : Sample2Config) (job_id pool_id : String)
        (e : SdkError),
      cfg.shoulddeletecontainer = true →
      (callOutcome env n s (Action.deleteContainer Sample2._CONTAINER_NAME)).2 = some e →
      (runProg env (Sample2.cleanup_prog cfg job_id pool_id) n s).err = some e) := by
  constructor
  · intro env n s cfg job_schedule_id h1 h2 hco
    simp only [Sample4.cleanup_prog, h1, h2, Bool.false_eq_true, if_true, if_false,
      List.nil_append]
    simp [runProg, Instr.action, Instr.benign, hco, RunResult.consTrace]
  · intro env n s cfg job_id pool_id e h1 hco
    simp only [Sample2.cleanup_prog, h1, if_true, List.cons_append, List.nil_append]
    rw [runProg]
    simp [Instr.action, Instr.benign, hco]

/-- Witness for C4 (amended): concrete cleanup runs against an empty remote
state, where the container deletion deterministically raises "not found". -/
theorem c4_amended_witness :
    (cfg4KeepSched.shoulddeletejobschedule = false ∧
      cfg4KeepSched.shoulddeletecontainer = true ∧
      (callOutcome envNoFault 0 emptyState (Action.deleteContainer Sample4._CONTAINER_NAME)).2 =
        some SdkError.resourceNotFound ∧
      (runProg envNoFault (Sample4.cleanup_prog cfg4KeepSched "JobScheduler-sfx0") 0
        emptyState).err = none) ∧
    (cfg2All.shoulddeletecontainer = true ∧
      (callOutcome envNoFault 0 emptyState (Action.deleteContainer Sample2._CONTAINER_NAME)).2 =
        some SdkError.resourceNotFound ∧
      (runProg envNoFault (Sample2.cleanup_prog cfg2All "JobX" "PoolX") 0 emptyState).err =
        some SdkError.resourceNotFound) :=
  ⟨⟨rfl, rfl, by decide,
    c4_amended.1 envNoFault 0 emptyState cfg4KeepSched "JobScheduler-sfx0" rfl rfl (by decide)⟩,
   ⟨rfl, by decide,
    c4_amended.2 envNoFault 0 emptyState cfg2All "JobX" "PoolX" SdkError.resourceNotFound rfl
      (by decide)⟩⟩

/-- C5 (amended): the direct-mode job id and the scheduled-mode job-schedule
id are generated with the run's uniqueness suffix, so two runs with distinct
suffixes never collide on them; the direct-mode pool id, however, is the
fixed literal `PoolsAndResourceFilesPool` with no suffix.  Submission itself
never waits: no trace of `create_pool`, `submit_job_and_add_task` or
`create_job_schedule` contains a wait operation. -/
theorem c5_amended :
    (∀ s1 s2 : String, s1 ≠ s2 →
      Sample2.job_id_of s1 ≠ Sample2.job_id_of s2 ∧
      Sample4.job_schedule_id_of s1 ≠ Sample4.job_schedule_id_of s2) ∧
    Sample2.pool_id = "PoolsAndResourceFilesPool" ∧
    (∀ (env : Env) (n : Nat) (s : RemoteState) (pool_id vm_size : String) (vm_count : Nat),
      ∀ a ∈ (Sample2.create_pool env n s pool_id vm_size vm_count).trace, a.isWait = false) ∧
    (∀ (env : Env) (n : Nat) (s : RemoteState) (job_id pool_id : String),
      ∀ a ∈ (Sample2.submit_job_and_add_task env n s job_id pool_id).trace, a.isWait = false) ∧
    (∀ (env : Env) (n : Nat) (s : RemoteState) (job_schedule_id : String),
      ∀ a ∈ (Sample4.create_job_schedule env n s job_schedule_id).trace, a.isWait = false) := by
  refine ⟨?_, rfl, ?_, ?_, ?_⟩
  · intro s1 s2 h
    constructor
    · intro heq
      apply h
      have hd := congrArg String.data heq
      simp [Sample2.job_id_of, generate_unique_resource_name, String.data_append] at hd
      exact String.ext hd
    · intro heq
      apply h
      have hd := congrArg String.data heq
      simp [Sample4.job_schedule_id_of, generate_unique_resource_name, String.data_append] at hd
      exact String.ext hd
  · intro env n s pool_id vm_size vm_count a ha
    have h := runProg_trace_subset env _ _ _ _ ha
    rw [List.mem_map] at h
    obtain ⟨i, hi, rfl⟩ := h
    simp only [Sample2.create_pool_prog, select_latest_verified_vm_image_with_node_agent_sku,
      upload_blob_and_create_sas, create_pool_if_not_exist] at hi
    fin_cases hi <;> rfl
  · intro env n s job_id pool_id a ha
    have h := runProg_trace_subset env _ _ _ _ ha
    rw [List.mem_map] at h
    obtain ⟨i, hi, rfl⟩ := h
    simp only [Sample2.submit_job_and_add_task_prog, upload_blob_and_create_sas] at hi
    fin_cases hi <;> rfl
  · intro env n s job_schedule_id a ha
    have h := runProg_trace_subset env _ _ _ _ ha
    rw [List.mem_map] at h
    obtain ⟨i, hi, rfl⟩ := h
    simp only [Sample4.create_job_schedule_prog, upload_blob_and_create_sas] at hi
    fin_cases hi <;> rfl

/-- Witness for C5 (amended): two concrete distinct suffixes yield distinct
job ids. -/
theorem c5_amended_witness :
    ("sfx0" : String) ≠ "sfx1" ∧ Sample2.job_id_of "sfx0" ≠ Sample2.job_id_of "sfx1" :=
  ⟨by decide, (c5_amended.1 "sfx0" "sfx1" (by decide)).1⟩

/-- A run that propagated no error attempted every instruction of its
program, in order. -/
theorem runProg_err_none_trace (env : Env) (prog : List Instr) :
    ∀ (n : Nat) (s : RemoteState), (runProg env prog n s).err = none →
      (runProg env prog n s).trace = prog.map Instr.action := by
  induction prog with
  | nil => intro n s _; simp [runProg]
  | cons i rest ih =>
    intro n s h
    rw [runProg] at h ⊢
    rcases hc : (callOutcome env n s i.action).2 with _ | e <;> simp only [hc] at h ⊢
    · simp only [RunResult.consTrace] at h ⊢
      rw [List.map_cons, ih _ _ h]
    · by_cases hb : i.benign e
      · simp only [hb, if_true, RunResult.consTrace] at h ⊢
        rw [List.map_cons, ih _ _ h]
      · simp [hb] at h

/-- The actions of the direct-mode cleanup suite, flag by flag. -/
theorem sample2_cleanup_actions (cfg : Sample2Config) (job_id pool_id : String) :
    (Sample2.cleanup_prog cfg job_id pool_id).map Instr.action =
      (if cfg.shoulddeletecontainer then [Action.deleteContainer Sample2._CONTAINER_NAME]
        else []) ++
      (if cfg.shoulddeletejob then [Action.jobDelete job_id] else []) ++
      (if cfg.shoulddeletepool then [Action.poolDelete pool_id] else []) := by
  by_cases h1 : cfg.shoulddeletecontainer <;> by_cases h2 : cfg.shoulddeletejob <;>
    by_cases h3 : cfg.shoulddeletepool <;>
    simp [Sample2.cleanup_prog, h1, h2, h3, Instr.action]

/-- The actions of the scheduled-mode cleanup suite, flag by flag. -/
theorem sample4_cleanup_actions (cfg : Sample4Config) (job_schedule_id : String) :
    (Sample4.cleanup_prog cfg job_schedule_id).map Instr.action =
      (if cfg.shoulddeletejobschedule then [Action.jobScheduleDelete job_schedule_id]
        else []) ++
      (if cfg.shoulddeletecontainer then [Action.deleteContainer Sample4._CONTAINER_NAME]
        else []) := by
  by_cases h1 : cfg.shoulddeletejobschedule <;> by_cases h2 : cfg.shoulddeletecontainer <;>
    simp [Sample4.cleanup_prog, h1, h2, Instr.action]

/-- C6 (amended): on every exit path of both samples the teardown block runs
and its first flagged deletion — whichever that is for the configuration — is
attempted; when no attempted deletion raises, every flagged deletion is
attempted; but a deletion that raises inside the teardown block skips the
remaining flagged deletions, and the teardown error propagates out of
`execute_sample`. -/
theorem c6_amended :
    (∀ (g : GlobalConfig) (cfg : Sample2Config) (env : Env) (n : Nat) (s : RemoteState),
      cfg.shoulddeletecontainer = true →
      Action.deleteContainer Sample2._CONTAINER_NAME
        ∈ (Sample2.execute_sample g cfg env n s).trace) ∧
    (∀ (g : GlobalConfig) (cfg : Sample2Config) (env : Env) (n : Nat) (s : RemoteState),
      cfg.shoulddeletecontainer = false → cfg.shoulddeletejob = true →
      Action.jobDelete (Sample2.job_id_of env.uniqueSuffix)
        ∈ (Sample2.execute_sample g cfg env n s).trace) ∧
    (∀ (g : GlobalConfig) (cfg : Sample2Config) (env : Env) (n : Nat) (s : RemoteState),
      cfg.shoulddeletecontainer = false → cfg.shoulddeletejob = false →
      cfg.shoulddeletepool = true →
      Action.poolDelete Sample2.pool_id ∈ (Sample2.execute_sample g cfg env n s).trace) ∧
    (∀ (g : GlobalConfig) (cfg : Sample4Config) (env : Env) (n : Nat) (s : RemoteState),
      cfg.shoulddeletejobschedule = true →
      Action.jobScheduleDelete (Sample4.job_schedule_id_of env.uniqueSuffix)
        ∈ (Sample4.execute_sample g cfg env n s).trace) ∧
    (∀ (g : GlobalConfig) (cfg : Sample4Config) (env : Env) (n : Nat) (s : RemoteState),
      cfg.shoulddeletejobschedule = false → cfg.shoulddeletecontainer = true →
      Action.deleteContainer Sample4._CONTAINER_NAME
        ∈ (Sample4.execute_sample g cfg env n s).trace) ∧
    (∀ (g : GlobalConfig) (cfg : Sample2Config) (env : Env) (n : Nat) (s : RemoteState),
      (runProg env (Sample2.cleanup_prog cfg (Sample2.job_id_of env.uniqueSuffix) Sample2.pool_id)
          (runProg env (Sample2.body_prog (Sample2.job_id_of env.uniqueSuffix) Sample2.pool_id
            cfg.poolvmsize cfg.poolvmcount) n s).counter
          (runProg env (Sample2.body_prog (Sample2.job_id_of env.uniqueSuffix) Sample2.pool_id
            cfg.poolvmsize cfg.poolvmcount) n s).state).err = none →
      (cfg.shoulddeletecontainer = true →
        Action.deleteContainer Sample2._CONTAINER_NAME
          ∈ (Sample2.execute_sample g cfg env n s).trace) ∧
      (cfg.shoulddeletejob = true →
        Action.jobDelete (Sample2.job_id_of env.uniqueSuffix)
          ∈ (Sample2.execute_sample g cfg env n s).trace) ∧
      (cfg.shoulddeletepool = true →
        Action.poolDelete Sample2.pool_id ∈ (Sample2.execute_sample g cfg env n s).trace)) ∧
    (∀ (g : GlobalConfig) (cfg : Sample4Config) (env : Env) (n : Nat) (s : RemoteState),
      (runProg env (Sample4.cleanup_prog cfg (Sample4.job_schedule_id_of env.uniqueSuffix))
          (runProg env (Sample4.body_prog env (Sample4.job_schedule_id_of env.uniqueSuffix))
            n s).counter
          (runProg env (Sample4.body_prog env (Sample4.job_schedule_id_of env.uniqueSuffix))
            n s).state).err = none →
      (cfg.shoulddeletejobschedule = true →
        Action.jobScheduleDelete (Sample4.job_schedule_id_of env.uniqueSuffix)
          ∈ (Sample4.execute_sample g cfg env n s).trace) ∧
      (cfg.shoulddeletecontainer = true →
        Action.deleteContainer Sample4._CONTAINER_NAME
          ∈ (Sample4.execute_sample g cfg env n s).trace)) ∧
    (∀ (env : Env) (n : Nat) (s : RemoteState) (cfg : Sample2Config) (job_id pool_id : String)
        (e : SdkError),
      cfg.shoulddeletecontainer = true →
      (callOutcome env n s (Action.deleteContainer Sample2._CONTAINER_NAME)).2 = some e →
      (runProg env (Sample2.cleanup_prog cfg job_id pool_id) n s).err = some e ∧
      Action.jobDelete job_id ∉ (runProg env (Sample2.cleanup_prog cfg job_id pool_id) n s).trace ∧
      Action.poolDelete pool_id
        ∉ (runProg env (Sample2.cleanup_prog cfg job_id pool_id) n s).trace) ∧
    (∀ (env : Env) (n : Nat) (s : RemoteState) (cfg : Sample2Config) (job_id pool_id : String)
        (e : SdkError),
      cfg.shoulddeletecontainer = false → cfg.shoulddeletejob = true →
      (callOutcome env n s (Action.jobDelete job_id)).2 = some e →
      (runProg env (Sample2.cleanup_prog cfg job_id pool_id) n s).err = some e ∧
      Action.poolDelete pool_id
        ∉ (runProg env (Sample2.cleanup_prog cfg job_id pool_id) n s).trace) ∧
    (∀ (env : Env) (n : Nat) (s s1 : RemoteState) (cfg : Sample2Config) (job_id pool_id : String)
        (e : SdkError),
      cfg.shoulddeletecontainer = true → cfg.shoulddeletejob = true →
      callOutcome env n s (Action.deleteContainer Sample2._CONTAINER_NAME) = (s1, none) →
      (callOutcome env (n + 1) s1 (Action.jobDelete job_id)).2 = some e →
      (runProg env (Sample2.cleanup_prog cfg job_id pool_id) n s).err = some e ∧
      Action.poolDelete pool_id
        ∉ (runProg env (Sample2.cleanup_prog cfg job_id pool_id) n s).trace) ∧
    (∀ (env : Env) (n : Nat) (s : RemoteState) (cfg : Sample4Config) (job_schedule_id : String)
        (e : SdkError),
      cfg.shoulddeletejobschedule = true →
      (callOutcome env n s (Action.jobScheduleDelete job_schedule_id)).2 = some e →
      (runProg env (Sample4.cleanup_prog cfg job_schedule_id) n s).err = some e ∧
      (∀ c, Action.deleteContainer c
        ∉ (runProg env (Sample4.cleanup_prog cfg job_schedule_id) n s).trace)) ∧
    (∀ (g : GlobalConfig) (cfg : Sample2Config) (env : Env) (n : Nat) (s : RemoteState)
        (e : SdkError),
      (runProg env (Sample2.cleanup_prog cfg (Sample2.job_id_of env.uniqueSuffix) Sample2.pool_id)
          (runProg env (Sample2.body_prog (Sample2.job_id_of env.uniqueSuffix) Sample2.pool_id
            cfg.poolvmsize cfg.poolvmcount) n s).counter
          (runProg env (Sample2.body_prog (Sample2.job_id_of env.uniqueSuffix) Sample2.pool_id
            cfg.poolvmsize cfg.poolvmcount) n s).state).err = some e →
      (Sample2.execute_sample g cfg env n s).err = some e) ∧
    (∀ (g : GlobalConfig) (cfg : Sample4Config) (env : Env) (n : Nat) (s : RemoteState)
        (e : SdkError),
      (runProg env (Sample4.cleanup_prog cfg (Sample4.job_schedule_id_of env.uniqueSuffix))
          (runProg env (Sample4.body_prog env (Sample4.job_schedule_id_of env.uniqueSuffix))
            n s).counter
          (runProg env (Sample4.body_prog env (Sample4.job_schedule_id_of env.uniqueSuffix))
            n s).state).err = some e →
      (Sample4.execute_sample g cfg env n s).err = some e) := by
  refine ⟨?_, ?_, ?_, ?_, ?_, ?_, ?_, ?_, ?_, ?_, ?_, ?_, ?_⟩
  · intro g cfg env n s h
    simp only [Sample2.execute_sample]
    have hsh : Sample2.cleanup_prog cfg (Sample2.job_id_of env.uniqueSuffix) Sample2.pool_id =
        Instr.call (Action.deleteContainer Sample2._CONTAINER_NAME) ::
          ((if cfg.shoulddeletejob then
              [Instr.call (Action.jobDelete (Sample2.job_id_of env.uniqueSuffix))] else []) ++
            (if cfg.shoulddeletepool then
              [Instr.call (Action.poolDelete Sample2.pool_id)] else [])) := by
      simp [Sample2.cleanup_prog, h]
    rw [hsh]
    obtain ⟨t, ht⟩ := runProg_cons_trace env
      (Instr.call (Action.deleteContainer Sample2._CONTAINER_NAME)) _ _ _
    rw [ht]
    simp [Instr.action]
  · intro g cfg env n s h1 h2
    simp only [Sample2.execute_sample]
    have hsh : Sample2.cleanup_prog cfg (Sample2.job_id_of env.uniqueSuffix) Sample2.pool_id =
        Instr.call (Action.jobDelete (Sample2.job_id_of env.uniqueSuffix)) ::
          (if cfg.shoulddeletepool then
            [Instr.call (Action.poolDelete Sample2.pool_id)] else []) := by
      simp [Sample2.cleanup_prog, h1, h2]
    rw [hsh]
    obtain ⟨t, ht⟩ := runProg_cons_trace env
      (Instr.call (Action.jobDelete (Sample2.job_id_of env.uniqueSuffix))) _ _ _
    rw [ht]
    simp [Instr.action]
  · intro g cfg env n s h1 h2 h3
    simp only [Sample2.execute_sample]
    have hsh : Sample2.cleanup_prog cfg (Sample2.job_id_of env.uniqueSuffix) Sample2.pool_id =
        [Instr.call (Action.poolDelete Sample2.pool_id)] := by
      simp [Sample2.cleanup_prog, h1, h2, h3]
    rw [hsh]
    obtain ⟨t, ht⟩ := runProg_cons_trace env
      (Instr.call (Action.poolDelete Sample2.pool_id)) _ _ _
    rw [ht]
    simp [Instr.action]
  · intro g cfg env n s h
    simp only [Sample4.execute_sample]
    have hsh : Sample4.cleanup_prog cfg (Sample4.job_schedule_id_of env.uniqueSuffix) =
        Instr.call (Action.jobScheduleDelete (Sample4.job_schedule_id_of env.uniqueSuffix)) ::
          (if cfg.shoulddeletecontainer then
            [Instr.callSwallow (Action.deleteContainer Sample4._CONTAINER_NAME)
              SdkError.resourceNotFound] else []) := by
      simp [Sample4.cleanup_prog, h]
    rw [hsh]
    obtain ⟨t, ht⟩ := runProg_cons_trace env
      (Instr.call (Action.jobScheduleDelete (Sample4.job_schedule_id_of env.uniqueSuffix))) _ _ _
    rw [ht]
    simp [Instr.action]
  · intro g cfg env n s h1 h2
    simp only [Sample4.execute_sample]
    have hsh : Sample4.cleanup_prog cfg (Sample4.job_schedule_id_of env.uniqueSuffix) =
        [Instr.callSwallow (Action.deleteContainer Sample4._CONTAINER_NAME)
          SdkError.resourceNotFound] := by
      simp [Sample4.cleanup_prog, h1, h2]
    rw [hsh]
    obtain ⟨t, ht⟩ := runProg_cons_trace env
      (Instr.callSwallow (Action.deleteContainer Sample4._CONTAINER_NAME)
        SdkError.resourceNotFound) _ _ _
    rw [ht]
    simp [Instr.action]
  · intro g cfg env n s h
    have htr := runProg_err_none_trace env _ _ _ h
    refine ⟨?_, ?_, ?_⟩ <;> intro hflag <;> simp only [Sample2.execute_sample] <;>
      apply List.mem_cons_of_mem <;> apply List.mem_cons_of_mem <;>
      apply List.mem_append_right <;>
      rw [htr, sample2_cleanup_actions] <;> simp [hflag]
  · intro g cfg env n s h
    have htr := runProg_err_none_trace env _ _ _ h
    refine ⟨?_, ?_⟩ <;> intro hflag <;> simp only [Sample4.execute_sample] <;>
      apply List.mem_cons_of_mem <;> apply List.mem_cons_of_mem <;>
      apply List.mem_append_right <;>
      rw [htr, sample4_cleanup_actions] <;> simp [hflag]
  · intro env n s cfg job_id pool_id e h1 hco
    simp only [Sample2.cleanup_prog, h1, if_true, List.cons_append, List.nil_append]
    rw [runProg]
    simp [Instr.action, Instr.benign, hco]
  · intro env n s cfg job_id pool_id e h1 h2 hco
    simp only [Sample2.cleanup_prog, h1, h2, Bool.false_eq_true, if_true, if_false,
      List.nil_append, List.cons_append]
    rw [runProg]
    simp [Instr.action, Instr.benign, hco]
  · intro env n s s1 cfg job_id pool_id e h1 h2 hco1 hco2
    simp only [Sample2.cleanup_prog, h1, h2, if_true, List.cons_append, List.nil_append]
    rw [runProg]
    simp only [Instr.action, hco1]
    rw [runProg]
    simp [Instr.action, Instr.benign, hco2, RunResult.consTrace]
  · intro env n s cfg job_schedule_id e h1 hco
    simp only [Sample4.cleanup_prog, h1, if_true, List.cons_append, List.nil_append]
    rw [runProg]
    simp [Instr.action, Instr.benign, hco]
  · intro g cfg env n s e h
    simp only [Sample2.execute_sample, h, finallyResult]
  · intro g cfg env n s e h
    simp only [Sample4.execute_sample, h, finallyResult]

/-- Witness for C6 (amended): the container-deletion flag is set and the
container deletion is attempted in a concrete aborted run; a concrete cleanup
run whose container deletion raises "not found" propagates that error and
skips the flagged job and pool deletions. -/
theorem c6_amended_witness :
    cfg2All.shoulddeletecontainer = true ∧
    Action.deleteContainer Sample2._CONTAINER_NAME
      ∈ (Sample2.execute_sample gConf cfg2All envFault0 0 emptyState).trace ∧
    (callOutcome envNoFault 0 emptyState (Action.deleteContainer Sample2._CONTAINER_NAME)).2 =
      some SdkError.resourceNotFound ∧
    ((runProg envNoFault (Sample2.cleanup_prog cfg2All "JobX" "PoolX") 0 emptyState).err =
        some SdkError.resourceNotFound ∧
      Action.jobDelete "JobX"
        ∉ (runProg envNoFault (Sample2.cleanup_prog cfg2All "JobX" "PoolX") 0 emptyState).trace ∧
      Action.poolDelete "PoolX"
        ∉ (runProg envNoFault (Sample2.cleanup_prog cfg2All "JobX" "PoolX") 0 emptyState).trace) :=
  ⟨rfl, c6_amended.1 gConf cfg2All envFault0 0 emptyState rfl,
   by decide,
   c6_amended.2.2.2.2.2.2.2.1 envNoFault 0 emptyState cfg2All "JobX" "PoolX"
     SdkError.resourceNotFound rfl (by decide)⟩

/-- C8: the job schedule submitted by `create_job_schedule` recurs every 10
minutes with a do-not-run-after cutoff 30 minutes from submission, uses an
auto-pool whose lifetime is scoped to the job (`pool_lifetime_option = job`,
`keep_alive = false`) with the requested VM size and count, terminates each
job once all its tasks are complete, and runs the job-manager task
`JobManagerTask` fetching the staged script; the schedule is submitted by
the program right after the staging upload. -/
theorem c8_job_schedule_spec :
    ∀ (job_schedule_id vm_size : String) (vm_count : Nat) (sas_url : String),
      (Sample4.create_job_schedule_param job_schedule_id vm_size vm_count sas_url).id =
        job_schedule_id ∧
      (Sample4.create_job_schedule_param job_schedule_id vm_size vm_count
        sas_url).schedule.recurrence_interval_minutes = 10 ∧
      (Sample4.create_job_schedule_param job_schedule_id vm_size vm_count
        sas_url).schedule.do_not_run_after_minutes = 30 ∧
      (∃ ap : AutoPoolSpecification,
        (Sample4.create_job_schedule_param job_schedule_id vm_size vm_count
          sas_url).job_specification.pool_info = PoolInformation.auto ap ∧
        ap.pool_lifetime_option = PoolLifetimeOption.job ∧
        ap.keep_alive = false ∧
        ap.pool.vm_size = vm_size ∧
        ap.pool.target_dedicated_nodes = vm_count) ∧
      (Sample4.create_job_schedule_param job_schedule_id vm_size vm_count
        sas_url).job_specification.on_all_tasks_complete = OnAllTasksComplete.terminate_job ∧
      (Sample4.create_job_schedule_param job_schedule_id vm_size vm_count
        sas_url).job_specification.job_manager_task.id = "JobManagerTask" ∧
      (Sample4.create_job_schedule_param job_schedule_id vm_size vm_count
        sas_url).job_specification.job_manager_task.resource_files =
        [⟨Sample4._SIMPLE_TASK_NAME, sas_url⟩] ∧
      (Sample4.create_job_schedule_prog job_schedule_id).map Instr.action =
        [Action.uploadBlob Sample4._CONTAINER_NAME Sample4._SIMPLE_TASK_NAME
          Sample4.sasExpiryMinutes,
         Action.jobScheduleAdd job_schedule_id] := by
  intro job_schedule_id vm_size vm_count sas_url
  refine ⟨rfl, rfl, rfl, ⟨_, rfl, rfl, rfl, rfl, rfl⟩, rfl, rfl, rfl, ?_⟩
  simp [Sample4.create_job_schedule_prog, upload_blob_and_create_sas, Instr.action]

/-- No instruction of the direct-mode body prints a batch-error value. -/
theorem sample2_body_no_printBatch (job_id pool_id vm_size : String) (vm_count : Nat) :
    ∀ i ∈ Sample2.body_prog job_id pool_id vm_size vm_count,
      ∀ v, i.action ≠ Action.printBatchErrorValue v := by
  intro i hi v
  simp only [Sample2.body_prog, Sample2.create_pool_prog, Sample2.submit_job_and_add_task_prog,
    select_latest_verified_vm_image_with_node_agent_sku, upload_blob_and_create_sas,
    create_pool_if_not_exist, wait_for_tasks_to_complete, print_task_output,
    List.cons_append, List.nil_append] at hi
  fin_cases hi <;> simp [Instr.action]

/-- No instruction of the direct-mode cleanup prints a batch-error value. -/
theorem sample2_cleanup_no_printBatch (cfg : Sample2Config) (job_id pool_id : String) :
    ∀ i ∈ Sample2.cleanup_prog cfg job_id pool_id,
      ∀ v, i.action ≠ Action.printBatchErrorValue v := by
  intro i hi v
  simp only [Sample2.cleanup_prog] at hi
  by_cases hc : cfg.shoulddeletecontainer <;> by_cases hj : cfg.shoulddeletejob <;>
    by_cases hp : cfg.shoulddeletepool <;>
    simp only [hc, hj, hp, if_true, if_false, List.cons_append, List.nil_append,
      List.append_nil] at hi <;>
    first
      | exact absurd hi (List.not_mem_nil i)
      | (fin_cases hi <;> simp [Instr.action])

/-- C9: exactly the scheduled-mode sample catches the batch-error exception
around its main workflow.  When its body raises a `batchError` and the
cleanup suite raises nothing, `execute_sample` finishes without a propagated
error and its trace prints every constituent error value.  Under the same
circumstances the direct-mode sample propagates the `batchError` out of
`execute_sample` after its cleanup, and nothing in its trace prints a
batch-error value. -/
theorem c9_batch_error_handling :
    (∀ (g : GlobalConfig) (cfg : Sample4Config) (env : Env) (n : Nat) (s : RemoteState)
        (vs : List String),
      (runProg env (Sample4.body_prog env (Sample4.job_schedule_id_of env.uniqueSuffix)) n s).err
          = some (SdkError.batchError vs) →
      (runProg env (Sample4.cleanup_prog cfg (Sample4.job_schedule_id_of env.uniqueSuffix))
          (runProg env (Sample4.body_prog env (Sample4.job_schedule_id_of env.uniqueSuffix))
            n s).counter
          (runProg env (Sample4.body_prog env (Sample4.job_schedule_id_of env.uniqueSuffix))
            n s).state).err = none →
      (Sample4.execute_sample g cfg env n s).err = none ∧
      ∀ v ∈ vs, Action.printBatchErrorValue v ∈ (Sample4.execute_sample g cfg env n s).trace) ∧
    (∀ (g : GlobalConfig) (cfg : Sample2Config) (env : Env) (n : Nat) (s : RemoteState)
        (vs : List String),
      (runProg env (Sample2.body_prog (Sample2.job_id_of env.uniqueSuffix) Sample2.pool_id
          cfg.poolvmsize cfg.poolvmcount) n s).err = some (SdkError.batchError vs) →
      (runProg env (Sample2.cleanup_prog cfg (Sample2.job_id_of env.uniqueSuffix) Sample2.pool_id)
          (runProg env (Sample2.body_prog (Sample2.job_id_of env.uniqueSuffix) Sample2.pool_id
            cfg.poolvmsize cfg.poolvmcount) n s).counter
          (runProg env (Sample2.body_prog (Sample2.job_id_of env.uniqueSuffix) Sample2.pool_id
            cfg.poolvmsize cfg.poolvmcount) n s).state).err = none →
      (Sample2.execute_sample g cfg env n s).err = some (SdkError.batchError vs) ∧
      ∀ v, Action.printBatchErrorValue v ∉ (Sample2.execute_sample g cfg env n s).trace) := by
  constructor
  · intro g cfg env n s vs hb hf
    constructor
    · simp only [Sample4.execute_sample, hb, hf, finallyResult]
    · intro v hv
      simp only [Sample4.execute_sample, hb]
      simp only [List.mem_cons, List.mem_append, List.mem_map]
      exact Or.inr (Or.inr (Or.inl (Or.inr ⟨v, hv, rfl⟩)))
  · intro g cfg env n s vs hb hf
    constructor
    · simp only [Sample2.execute_sample, hb, hf, finallyResult]
    · intro v hv
      simp only [Sample2.execute_sample, List.mem_cons, List.mem_append] at hv
      rcases hv with h | h | h | h
      · exact absurd h (by simp)
      · exact absurd h (by simp)
      · have := runProg_trace_subset env _ _ _ _ h
        rw [List.mem_map] at this
        obtain ⟨i, hi, hact⟩ := this
        exact sample2_body_no_printBatch _ _ _ _ i hi v hact
      · have := runProg_trace_subset env _ _ _ _ h
        rw [List.mem_map] at this
        obtain ⟨i, hi, hact⟩ := this
        exact sample2_cleanup_no_printBatch cfg _ _ i hi v hact

/-- Witness for C9: a concrete scheduled-mode run whose first remote call
raises a `batchError` with one value, with no deletions flagged: the value is
printed and no error propagates. -/
theorem c9_batch_error_handling_witness :
    (runProg envBatchFault (Sample4.body_prog envBatchFault
        (Sample4.job_schedule_id_of envBatchFault.uniqueSuffix)) 0 emptyState).err =
      some (SdkError.batchError ["boom"]) ∧
    (runProg envBatchFault (Sample4.cleanup_prog cfg4NoDelete
        (Sample4.job_schedule_id_of envBatchFault.uniqueSuffix))
      (runProg envBatchFault (Sample4.body_prog envBatchFault
        (Sample4.job_schedule_id_of envBatchFault.uniqueSuffix)) 0 emptyState).counter
      (runProg envBatchFault (Sample4.body_prog envBatchFault
        (Sample4.job_schedule_id_of envBatchFault.uniqueSuffix)) 0 emptyState).state).err =
      none ∧
    ((Sample4.execute_sample gConf cfg4NoDelete envBatchFault 0 emptyState).err = none ∧
      ∀ v ∈ ["boom"], Action.printBatchErrorValue v
        ∈ (Sample4.execute_sample gConf cfg4NoDelete envBatchFault 0 emptyState).trace) :=
  ⟨by decide, by decide,
   c9_batch_error_handling.1 gConf cfg4NoDelete envBatchFault 0 emptyState ["boom"]
     (by decide) (by decide)⟩

end AzBatch
